import Mathlib

/-!
Shallow embedding of the backend-payment-system core (Rust/axum/sqlx) in Lean 4.

The embedding follows the source files:
  src/routes/auth.rs  — AuthService: register, login, verify_token, refresh_token,
                        generate_tokens; route handlers
  src/routes/utils.rs — validate_auth_token, check_password
  src/routes/user.rs  — get_user, update_user, deposit
  src/routes/tx.rs    — create_transaction, get_transaction, list_transactions
  src/db/auth.rs      — AuthRepository: create_user, find_user_by_email,
                        store_refresh_token, verify_refresh_token
  src/db/utils.rs     — convert_offsetdt_to_dt

Modelling conventions:
  * `Uuid` values are modelled as `Nat`; fresh uuids (new user ids, transfer ids,
    refresh-token strings) are passed in as explicit parameters, since they come
    from an external RNG.
  * Timestamps (`chrono::DateTime<Utc>` / unix timestamps) are `Int` seconds;
    `Utc::now()` is a `now : Int` parameter, taken once per service call.
  * Monetary amounts (`sqlx::types::Decimal`, fixed-point) are modelled as `Int`
    (a scaled fixed-point integer: addition and subtraction are exact, which is
    all the source performs).
  * The database (Postgres) is a `Store` of three tables held as lists; a sqlx
    `UPDATE`/`INSERT`/`SELECT` is the corresponding list transformation.  The
    transactional scope in `create_transaction` accumulates effects on a working
    copy of the store that is installed only on commit; every error path returns
    the original store (rollback on drop).  Infrastructure failures of the
    individual statements inside the transaction, and of `begin`/`commit`, are
    injected as explicit boolean oracle parameters.
  * A JWT is a structure carrying its claims, its header algorithm, and — as the
    shallow model of an HMAC-SHA256 signature — the secret it was signed with.
    `jsonwebtoken::decode` succeeds exactly when the algorithm is HS256, the
    signature matches the secret, and `exp` is not expired beyond the leeway
    (jsonwebtoken rejects when `exp < now - leeway`).
  * `argon2` hashing and `PasswordHash` parsing are external: hashing is an
    injected `hashFn : String → Option String` (None = hashing failure), hash
    parsing an injected `parseOk : String → Bool`, and verification an injected
    `verify : String → String → Bool` (plaintext, stored hash).
  * Each axum handler returns `Store × Except (StatusCode × String) α`: the
    store visible after the call, plus the response.  `StatusCode` is an
    enumeration of the status codes named by the source.
-/

namespace PaymentSystem

/-- HTTP status codes used by the source (axum::http::StatusCode). -/
inductive StatusCode where
  | OK
  | CREATED
  | BAD_REQUEST
  | UNAUTHORIZED
  | NOT_FOUND
  | INTERNAL_SERVER_ERROR
deriving DecidableEq, Repr

/-- Row of the `users` table (struct `User` in src/db/user.rs, fields as used by
src/db/auth.rs `verify_refresh_token` and src/routes/user.rs). -/
structure User where
  id : Nat
  email : String
  password_hash : String
  full_name : Option String
  balance : Int
  status : String
  created_at : Int
  updated_at : Int
deriving DecidableEq, Repr

/-- Row of the `refresh_tokens` table (see src/db/auth.rs). -/
structure RefreshTokenRow where
  user_id : Nat
  token : String
  expires_at : Int
deriving DecidableEq, Repr

/-- Row of the `transfers` table (see src/routes/tx.rs). -/
structure TransferRow where
  id : Nat
  sender_id : Nat
  recipient_id : Nat
  amount : Int
deriving DecidableEq, Repr

/-- The Postgres database state: the three tables the core touches. -/
structure Store where
  users : List User
  refresh_tokens : List RefreshTokenRow
  transfers : List TransferRow
deriving DecidableEq, Repr

/-- JWT claims (struct `Claims` in src/routes/auth.rs). -/
structure Claims where
  sub : Nat
  exp : Int
  iat : Int
deriving DecidableEq, Repr

/-- A signed JWT: claims, header algorithm, and the signing secret standing in
for the HMAC signature. -/
structure Jwt where
  claims : Claims
  alg : String
  sig : String
deriving DecidableEq, Repr

/-- `jsonwebtoken::encode(&Header::default(), claims, secret)`:
Header::default() selects HS256. -/
def encodeJwt (secret : String) (c : Claims) : Jwt :=
  { claims := c, alg := "HS256", sig := secret }

/-- src/db/utils.rs `convert_offsetdt_to_dt`: takes the unix timestamp (in
seconds) of an OffsetDateTime and feeds it to
`DateTime::<Utc>::from_timestamp_micros`, i.e. reinterprets seconds as
microseconds; as a seconds-valued timestamp the result is `secs / 1000000`. -/
def convert_offsetdt_to_dt (secs : Int) : Int :=
  secs / 1000000

/-! ## src/db/auth.rs — AuthRepository -/

/-- `AuthRepository::create_user`: INSERT INTO users (email, password_hash,
full_name) VALUES ($1,$2,$3) RETURNING id, email.  The schema fills the
remaining columns: fresh id (injected), balance 0 (spec §3: balance "defaults
to zero"), status active, created/updated = now.  Returns (id, email). -/
def create_user (st : Store) (email password_hash : String)
    (full_name : Option String) (freshId : Nat) (now : Int) :
    Store × (Nat × String) :=
  let u : User :=
    { id := freshId, email := email, password_hash := password_hash,
      full_name := full_name, balance := 0, status := "active",
      created_at := now, updated_at := now }
  ({ st with users := st.users ++ [u] }, (freshId, email))

/-- `AuthRepository::find_user_by_email`: SELECT id, email, password_hash FROM
users WHERE email = $1, fetch_optional. -/
def find_user_by_email (st : Store) (email : String) :
    Option (Nat × String × String) :=
  (st.users.find? (fun u => u.email = email)).map
    (fun u => (u.id, u.email, u.password_hash))

/-- `AuthRepository::store_refresh_token`: INSERT INTO refresh_tokens
(user_id, token, expires_at) VALUES ($1,$2,$3). -/
def store_refresh_token (st : Store) (user_id : Nat) (token : String)
    (expires_at : Int) : Store :=
  { st with refresh_tokens :=
      st.refresh_tokens ++ [{ user_id := user_id, token := token, expires_at := expires_at }] }

/-- `AuthRepository::verify_refresh_token`: SELECT u.* FROM users u INNER JOIN
refresh_tokens rt ON rt.user_id = u.id WHERE rt.token = $1 AND
rt.expires_at > CURRENT_TIMESTAMP, fetch_optional; the row is mapped to a
`User` with a dummy balance of 0 and status "active", and timestamps run
through `convert_offsetdt_to_dt`. -/
def verify_refresh_token (st : Store) (token : String) (now : Int) :
    Option User :=
  st.refresh_tokens.findSome? (fun rt =>
    if rt.token = token ∧ now < rt.expires_at then
      (st.users.find? (fun u => u.id = rt.user_id)).map (fun u =>
        { id := u.id, email := u.email, password_hash := u.password_hash,
          full_name := u.full_name, balance := 0, status := "active",
          created_at := convert_offsetdt_to_dt u.created_at,
          updated_at := convert_offsetdt_to_dt u.updated_at })
    else none)

/-! ## src/routes/utils.rs -/

/-- `check_password` (src/routes/utils.rs): five sequential rules, each
returning its own error message. -/
def check_password (password : List Char) : Except String Unit :=
  if password.length < 8 then
    .error "Password must be at least 8 characters"
  else if ¬ password.any Char.isUpper then
    .error "Password must contain at least one uppercase letter"
  else if ¬ password.any Char.isLower then
    .error "Password must contain at least one lowercase letter"
  else if ¬ password.any (fun c => c.isDigit) then
    .error "Password must contain at least one digit"
  else if ¬ password.any (fun c => ¬ c.isAlphanum) then
    .error "Password must contain at least one special character"
  else
    .ok ()

/-! ## src/routes/auth.rs — AuthService -/

/-- `AuthService::generate_tokens`: access token = HS256 JWT with sub =
user_id, exp = now + 15*60, iat = now; refresh token = a fresh uuid string
(injected as `freshRefresh`). -/
def generate_tokens (secret : String) (user_id : Nat) (now : Int)
    (freshRefresh : String) : Jwt × String :=
  (encodeJwt secret { sub := user_id, exp := now + 15 * 60, iat := now },
   freshRefresh)

/-- `AuthService::verify_token`: jsonwebtoken::decode with leeway 10,
validate_exp, algorithms = [HS256]; any decode failure collapses to
"Invalid token".  jsonwebtoken rejects as expired when exp < now - leeway. -/
def verify_token (secret : String) (now : Int) (token : Jwt) :
    Except String Nat :=
  if token.alg = "HS256" ∧ token.sig = secret ∧ ¬ token.claims.exp < now - 10 then
    .ok token.claims.sub
  else
    .error "Invalid token"

/-- The response body of the auth flows (struct `AuthResponse`). -/
structure AuthResponse where
  access_token : Jwt
  refresh_token : String
  user_uid : Nat
deriving DecidableEq, Repr

structure RegisterRequest where
  email : String
  password : List Char
  full_name : Option String

structure LoginRequest where
  email : String
  password : String

/-- `AuthService::register`.  `hashFn` models `Argon2::hash_password` with a
fresh salt (None = hashing failure); `freshId` the db-generated user id;
`freshRefresh` the fresh refresh-token uuid. -/
def RegisterService (st : Store) (req : RegisterRequest)
    (hashFn : List Char → Option String) (secret : String)
    (freshId : Nat) (freshRefresh : String) (now : Int) :
    Store × Except String AuthResponse :=
  -- Check if user already exists
  match find_user_by_email st req.email with
  | some _ => (st, .error "User already exists")
  | none =>
    -- check for password validity
    match check_password req.password with
    | .error e => (st, .error e)
    | .ok _ =>
      -- Hash password
      match hashFn req.password with
      | none => (st, .error "unable to hash password")
      | some password_hash =>
        -- Create user
        let (st₁, (user, _email)) :=
          create_user st req.email password_hash req.full_name freshId now
        -- Generate tokens
        let (access_token, refresh_token) :=
          generate_tokens secret user now freshRefresh
        -- Store refresh token (1 hr expiry)
        let st₂ := store_refresh_token st₁ user refresh_token (now + 60 * 60)
        (st₂, .ok { access_token := access_token,
                    refresh_token := refresh_token, user_uid := user })

/-- `AuthService::login`.  `parseOk` models `PasswordHash::new` on the stored
hash; `verify` models `Argon2::verify_password (plaintext, parsed hash)`. -/
def LoginService (st : Store) (req : LoginRequest)
    (parseOk : String → Bool) (verify : String → String → Bool)
    (secret : String) (freshRefresh : String) (now : Int) :
    Store × Except String AuthResponse :=
  -- Find user
  match find_user_by_email st req.email with
  | none => (st, .error "Invalid credentials")
  | some (user, _email, password) =>
    -- Verify password
    if ¬ parseOk password then (st, .error "unable to generate password")
    else if ¬ verify req.password password then (st, .error "Invalid credentials")
    else
      -- Generate tokens
      let (access_token, refresh_token) :=
        generate_tokens secret user now freshRefresh
      -- Store refresh token (1 hr expiry)
      let st₁ := store_refresh_token st user refresh_token (now + 60 * 60)
      (st₁, .ok { access_token := access_token,
                  refresh_token := refresh_token, user_uid := user })

/-- `AuthService::refresh_token`. -/
def RefreshService (st : Store) (refresh_token : String)
    (secret : String) (freshRefresh : String) (now : Int) :
    Store × Except String AuthResponse :=
  -- Verify refresh token and get user
  match verify_refresh_token st refresh_token now with
  | none => (st, .error "Invalid refresh token")
  | some user =>
    -- Generate new tokens
    let (access_token, new_refresh_token) :=
      generate_tokens secret user.id now freshRefresh
    -- Store new refresh token (1 hr expiry)
    let st₁ := store_refresh_token st user.id new_refresh_token (now + 60 * 60)
    (st₁, .ok { access_token := access_token,
                refresh_token := new_refresh_token, user_uid := user.id })

/-- `login_handler` (route layer): maps a service error to
(StatusCode::UNAUTHORIZED, message). -/
def login_handler (st : Store) (req : LoginRequest)
    (parseOk : String → Bool) (verify : String → String → Bool)
    (secret : String) (freshRefresh : String) (now : Int) :
    Store × Except (StatusCode × String) AuthResponse :=
  match LoginService st req parseOk verify secret freshRefresh now with
  | (st', .ok resp) => (st', .ok resp)
  | (st', .error e) => (st', .error (.UNAUTHORIZED, e))

/-- `validate_auth_token` (src/routes/utils.rs): the Authorization header is
modelled as `Option Jwt` (None = absent or unreadable header); a failed
`verify_token` also yields UNAUTHORIZED. -/
def validate_auth_token (auth : Option Jwt) (secret : String) (now : Int) :
    Except StatusCode Nat :=
  match auth with
  | none => .error .UNAUTHORIZED
  | some token =>
    match verify_token secret now token with
    | .ok user => .ok user
    | .error _ => .error .UNAUTHORIZED

/-! ## src/routes/tx.rs -/

/-- Request body of `create_transaction` (struct `Transfer`). -/
structure TransferReq where
  sender_id : Nat
  receiver_id : Nat
  amount : Int
  description : Option String

/-- UPDATE users SET balance = balance - $1 WHERE id = $2. -/
def debitUser (st : Store) (uid : Nat) (amount : Int) : Store :=
  { st with users := st.users.map (fun u =>
      if u.id = uid then { u with balance := u.balance - amount } else u) }

/-- UPDATE users SET balance = balance + $1 WHERE id = $2. -/
def creditUser (st : Store) (uid : Nat) (amount : Int) : Store :=
  { st with users := st.users.map (fun u =>
      if u.id = uid then { u with balance := u.balance + amount } else u) }

/-- INSERT INTO transfers (sender_id, recipient_id, amount) VALUES ($1,$2,$3)
RETURNING id; the generated id is injected as `freshId`. -/
def insertTransfer (st : Store) (freshId sender_id recipient_id : Nat)
    (amount : Int) : Store :=
  { st with transfers := st.transfers ++
      [{ id := freshId, sender_id := sender_id,
         recipient_id := recipient_id, amount := amount }] }

/-- `create_transaction` (src/routes/tx.rs).  The booleans are the
infrastructure-failure oracle: `failBegin` for `pool.begin()`, `fail₁ fail₂
fail₃` for the three statements inside the transaction, `failCommit` for
`tx.commit()`.  Effects of the three statements accumulate on the working
copy of the store held by the transaction and become visible only on commit;
every error path returns the caller-visible store unchanged (the transaction
is dropped, i.e. rolled back). -/
def create_transaction (st : Store) (auth : Option Jwt) (secret : String)
    (now : Int) (transfer : TransferReq)
    (failBegin fail₁ fail₂ fail₃ failCommit : Bool) (freshId : Nat) :
    Store × Except (StatusCode × String) Nat :=
  match validate_auth_token auth secret now with
  | .error code => (st, .error (code, "Invalid token"))
  | .ok header_uid =>
    -- Transfer sender_id must match the token user_id
    if header_uid ≠ transfer.sender_id then
      (st, .error (.UNAUTHORIZED, "Invalid token"))
    -- Begin a database transaction
    else if failBegin then
      (st, .error (.INTERNAL_SERVER_ERROR, "Failed to transfer amount"))
    else
      let sender_id := transfer.sender_id
      let receiver_id := transfer.receiver_id
      let amount := transfer.amount
      -- Deduct amount from sender
      let tx₁ := if fail₁ then st else debitUser st sender_id amount
      -- Add amount to receiver
      let tx₂ := if fail₂ then tx₁ else creditUser tx₁ receiver_id amount
      -- Insert transaction record
      let tx₃ := if fail₃ then tx₂ else
        insertTransfer tx₂ freshId sender_id receiver_id amount
      -- Validate if all the transactions were successful
      if fail₁ ∨ fail₂ ∨ fail₃ then
        (st, .error (.INTERNAL_SERVER_ERROR, "Failed to transfer amount"))
      -- Commit the transaction
      else if failCommit then
        (st, .error (.INTERNAL_SERVER_ERROR, "Failed to transfer amount"))
      else
        (tx₃, .ok freshId)

/-- Response body of `get_transaction` (a `Transfer` echoed back with
description None). -/
structure TransferOut where
  sender_id : Nat
  receiver_id : Nat
  amount : Int
  description : Option String
deriving DecidableEq, Repr

/-- `get_transaction` (src/routes/tx.rs): SELECT sender_id, recipient_id,
amount FROM transfers WHERE id = $1 AND (sender_id = $2 OR recipient_id = $2),
fetch_one; a missing row (RowNotFound) and any other query failure are both
mapped to (INTERNAL_SERVER_ERROR, "Failed to retrieve transaction"). -/
def get_transaction (st : Store) (auth : Option Jwt) (secret : String)
    (now : Int) (transaction_id : Nat) :
    Except (StatusCode × String) TransferOut :=
  match validate_auth_token auth secret now with
  | .error code => .error (code, "Invalid token")
  | .ok header_uid =>
    match st.transfers.find? (fun t =>
        t.id = transaction_id ∧
          (t.sender_id = header_uid ∨ t.recipient_id = header_uid)) with
    | some record =>
      .ok { sender_id := record.sender_id, receiver_id := record.recipient_id,
            amount := record.amount, description := none }
    | none => .error (.INTERNAL_SERVER_ERROR, "Failed to retrieve transaction")

/-- `list_transactions` (src/routes/tx.rs): SELECT id, sender_id,
recipient_id, amount FROM transfers WHERE sender_id = $1 OR recipient_id = $1,
fetch_all, streamed back as events. -/
def list_transactions (st : Store) (auth : Option Jwt) (secret : String)
    (now : Int) : Except (StatusCode × String) (List TransferOut) :=
  match validate_auth_token auth secret now with
  | .error code => .error (code, "Invalid token")
  | .ok user_id =>
    .ok ((st.transfers.filter (fun t =>
        t.sender_id = user_id ∨ t.recipient_id = user_id)).map (fun record =>
      { sender_id := record.sender_id, receiver_id := record.recipient_id,
        amount := record.amount, description := none }))

/-! ## src/routes/user.rs -/

/-- Request body of `update_user` (struct `UpdateUser`). -/
structure UpdateUserReq where
  user_id : Nat
  new_name : String
  new_email : String

/-- `update_user` (src/routes/user.rs): after the auth and
payload.user_id == caller check, issues
UPDATE users SET full_name = $1, email = $2 — with no WHERE clause, so the
assignment applies to every row of the users table.  Note the mismatch branch
returns Ok((UNAUTHORIZED, "Unauthorized")), not Err. -/
def update_user (st : Store) (auth : Option Jwt) (secret : String)
    (now : Int) (payload : UpdateUserReq) :
    Store × Except (StatusCode × String) (StatusCode × String) :=
  match validate_auth_token auth secret now with
  | .error code => (st, .error (code, "Invalid token"))
  | .ok user_id =>
    if payload.user_id ≠ user_id then
      (st, .ok (.UNAUTHORIZED, "Unauthorized"))
    else
      let st₁ := { st with users := st.users.map (fun (u : User) =>
        { u with full_name := some payload.new_name,
                 email := payload.new_email }) }
      (st₁, .ok (.OK, "User updated successfully"))

/-- Request body of `deposit` (struct `Deposit`). -/
structure DepositReq where
  email : String
  full_name : String
  amount : Int

/-- `deposit` (src/routes/user.rs): resolves the email of the caller by id, rejects
a payload for a different email, re-checks existence via
find_user_by_email, then issues
UPDATE users SET balance = balance + $1 WHERE email = $2 RETURNING id, balance. -/
def deposit (st : Store) (auth : Option Jwt) (secret : String) (now : Int)
    (payload : DepositReq) :
    Store × Except (StatusCode × String) String :=
  match validate_auth_token auth secret now with
  | .error code => (st, .error (code, "Invalid token"))
  | .ok user_id =>
    -- SELECT email FROM users WHERE id = $1, fetch_one
    match st.users.find? (fun u => u.id = user_id) with
    | none => (st, .error (.INTERNAL_SERVER_ERROR, "Failed to create user"))
    | some row =>
      let user_email := row.email
      if payload.email ≠ user_email then
        (st, .error (.UNAUTHORIZED, "Unauthorized"))
      else
        -- check if user already exists
        match find_user_by_email st payload.email with
        | none => (st, .error (.INTERNAL_SERVER_ERROR, "Failed to create user"))
        | some _ =>
          let st₁ := { st with users := st.users.map (fun (u : User) =>
            if u.email = payload.email then
              { u with balance := u.balance + payload.amount } else u) }
          match st₁.users.find? (fun u => u.email = payload.email) with
          | none => (st, .error (.INTERNAL_SERVER_ERROR,
              "Failed to update user balance"))
          | some record =>
            (st₁, .ok ("User balance updated successfully. New balance: " ++
              toString record.balance))

/-! ## Concrete fixtures for witnesses and counterexamples -/

/-- A user with id 1 holding balance 100. -/
def alice : User :=
  { id := 1, email := "alice@example.com", password_hash := "h1",
    full_name := none, balance := 100, status := "active",
    created_at := 0, updated_at := 0 }

/-- A user with id 2 holding balance 0. -/
def bob : User :=
  { id := 2, email := "bob@example.com", password_hash := "h2",
    full_name := none, balance := 0, status := "active",
    created_at := 0, updated_at := 0 }

/-- A store holding the two users and no refresh tokens or transfers. -/
def baseStore : Store :=
  { users := [alice, bob], refresh_tokens := [], transfers := [] }

/-- A valid access token for user 1, signed with the fixture secret. -/
def aliceToken : Jwt := encodeJwt "topsecret" { sub := 1, exp := 1000, iat := 100 }

/-- A transfer request of amount 30 from user 1 to user 2. -/
def reqSmall : TransferReq :=
  { sender_id := 1, receiver_id := 2, amount := 30, description := none }

/-- A transfer request of amount 150, exceeding the balance 100 of user 1. -/
def reqOverdraft : TransferReq :=
  { sender_id := 1, receiver_id := 2, amount := 150, description := none }

/-- A transfer request with a negative amount. -/
def reqNegative : TransferReq :=
  { sender_id := 1, receiver_id := 2, amount := -5, description := none }

/-- A store that also holds a live refresh token "tokR" of user 1 expiring
at time 2000. -/
def refreshStore : Store :=
  { users := [alice, bob],
    refresh_tokens := [{ user_id := 1, token := "tokR", expires_at := 2000 }],
    transfers := [] }

/-- The row returned for user 1 by verify_refresh_token (balance stubbed to 0,
status to "active" by the mapping in src/db/auth.rs). -/
def mappedAlice : User :=
  { id := 1, email := "alice@example.com", password_hash := "h1",
    full_name := none, balance := 0, status := "active",
    created_at := 0, updated_at := 0 }

/-- A store holding one transfer between users 2 and 3, with user 1 not a
party to it. -/
def txStoreOther : Store :=
  { users := [alice, bob], refresh_tokens := [],
    transfers := [{ id := 9, sender_id := 2, recipient_id := 3, amount := 5 }] }

/-- A store holding one transfer sent by user 1. -/
def txStoreMine : Store :=
  { users := [alice, bob], refresh_tokens := [],
    transfers := [{ id := 9, sender_id := 1, recipient_id := 2, amount := 5 }] }

/-! ## Helper lemmas -/

theorem findSome?_none_of_forall {α β : Type} (f : α → Option β) (l : List α)
    (h : ∀ a ∈ l, f a = none) : l.findSome? f = none := by
  induction l with
  | nil => rfl
  | cons x xs ih =>
    have hx := h x (List.mem_cons_self x xs)
    simp only [List.findSome?, hx]
    exact ih (fun a ha => h a (List.mem_cons_of_mem x ha))

theorem findSome?_some_mem {α β : Type} (f : α → Option β) (l : List α) (b : β)
    (h : l.findSome? f = some b) : ∃ a ∈ l, f a = some b := by
  induction l with
  | nil => simp [List.findSome?] at h
  | cons x xs ih =>
    cases hfx : f x with
    | some c =>
      simp only [List.findSome?, hfx] at h
      exact ⟨x, List.mem_cons_self x xs, by rw [hfx, h]⟩
    | none =>
      simp only [List.findSome?, hfx] at h
      obtain ⟨a, ha, hfa⟩ := ih h
      exact ⟨a, List.mem_cons_of_mem x ha, hfa⟩

/-- A successful refresh-token lookup comes from a stored row matching the
token, unexpired, owned by the returned user. -/
theorem verify_refresh_token_some_spec (st : Store) (token : String)
    (now : Int) (user : User)
    (h : verify_refresh_token st token now = some user) :
    ∃ rt ∈ st.refresh_tokens, rt.token = token ∧ now < rt.expires_at
      ∧ user.id = rt.user_id := by
  obtain ⟨rt, hmem, hf⟩ := findSome?_some_mem _ _ _ h
  by_cases hc : rt.token = token ∧ now < rt.expires_at
  · refine ⟨rt, hmem, hc.1, hc.2, ?_⟩
    rw [if_pos hc] at hf
    obtain ⟨u, hfind, hu⟩ := Option.map_eq_some'.mp hf
    have hid := List.find?_some hfind
    simp only [decide_eq_true_eq] at hid
    rw [← hu]
    exact hid
  · rw [if_neg hc] at hf
    exact absurd hf (by simp)

/-! ## Claim theorems -/

/-- C5: the login failure for an unknown email and the login failure for a
known email whose stored hash parses but whose password does not verify
produce the identical (UNAUTHORIZED, "Invalid credentials") response — same
message and shape — so the two causes are indistinguishable to the caller. -/
theorem C5_login_uniform_error
    (st₁ st₂ : Store) (req₁ req₂ : LoginRequest)
    (parseOk : String → Bool) (verify : String → String → Bool)
    (secret fr₁ fr₂ : String) (now₁ now₂ : Int)
    (uid : Nat) (e ph : String)
    (h₁ : find_user_by_email st₁ req₁.email = none)
    (h₂ : find_user_by_email st₂ req₂.email = some (uid, e, ph))
    (h₃ : parseOk ph = true)
    (h₄ : verify req₂.password ph = false) :
    login_handler st₁ req₁ parseOk verify secret fr₁ now₁
      = (st₁, .error (.UNAUTHORIZED, "Invalid credentials"))
    ∧ login_handler st₂ req₂ parseOk verify secret fr₂ now₂
      = (st₂, .error (.UNAUTHORIZED, "Invalid credentials")) := by
  constructor
  · simp [login_handler, LoginService, h₁]
  · simp [login_handler, LoginService, h₂, h₃, h₄]

/-- Witness for C5: in the fixture store, login with an unknown email and
login as user 1 with a non-verifying password both yield the identical
response. -/
theorem C5_login_uniform_error_witness :
    login_handler baseStore { email := "nobody@example.com", password := "pw" }
        (fun _ => true) (fun _ _ => false) "topsecret" "r1" 500
      = (baseStore, .error (.UNAUTHORIZED, "Invalid credentials"))
    ∧ login_handler baseStore { email := "alice@example.com", password := "wrong" }
        (fun _ => true) (fun _ _ => false) "topsecret" "r2" 600
      = (baseStore, .error (.UNAUTHORIZED, "Invalid credentials")) :=
  C5_login_uniform_error baseStore baseStore
    { email := "nobody@example.com", password := "pw" }
    { email := "alice@example.com", password := "wrong" }
    (fun _ => true) (fun _ _ => false) "topsecret" "r1" "r2" 500 600
    1 "alice@example.com" "h1" rfl rfl rfl rfl

/-- C7: with the email free, a password rejected by the admission policy makes
registration fail with exactly the check_password error, which names the first
violated rule, and leaves the store unchanged; moreover a password passes
check_password exactly when all five rules hold simultaneously (each rule is
independently necessary). -/
theorem C7_register_password_policy
    (st : Store) (req : RegisterRequest) (hashFn : List Char → Option String)
    (secret : String) (freshId : Nat) (freshRefresh : String) (now : Int)
    (msg : String)
    (hfree : find_user_by_email st req.email = none)
    (hbad : check_password req.password = .error msg) :
    RegisterService st req hashFn secret freshId freshRefresh now
      = (st, .error msg)
    ∧ ((req.password.length < 8
          ∧ msg = "Password must be at least 8 characters")
      ∨ (¬ req.password.any Char.isUpper
          ∧ msg = "Password must contain at least one uppercase letter")
      ∨ (¬ req.password.any Char.isLower
          ∧ msg = "Password must contain at least one lowercase letter")
      ∨ (¬ req.password.any (fun c => c.isDigit)
          ∧ msg = "Password must contain at least one digit")
      ∨ (¬ req.password.any (fun c => ¬ c.isAlphanum)
          ∧ msg = "Password must contain at least one special character"))
    ∧ (∀ pw : List Char, check_password pw = .ok () ↔
        (¬ pw.length < 8 ∧ pw.any Char.isUpper ∧ pw.any Char.isLower
          ∧ pw.any (fun c => c.isDigit) ∧ pw.any (fun c => ¬ c.isAlphanum))) := by
  refine ⟨?_, ?_, ?_⟩
  · simp [RegisterService, hfree, hbad]
  · unfold check_password at hbad
    by_cases h₁ : req.password.length < 8
    · rw [if_pos h₁] at hbad
      injection hbad with h
      exact Or.inl ⟨h₁, h.symm⟩
    · rw [if_neg h₁] at hbad
      by_cases h₂ : ¬ req.password.any Char.isUpper
      · rw [if_pos h₂] at hbad
        injection hbad with h
        exact Or.inr (Or.inl ⟨h₂, h.symm⟩)
      · rw [if_neg h₂] at hbad
        by_cases h₃ : ¬ req.password.any Char.isLower
        · rw [if_pos h₃] at hbad
          injection hbad with h
          exact Or.inr (Or.inr (Or.inl ⟨h₃, h.symm⟩))
        · rw [if_neg h₃] at hbad
          by_cases h₄ : ¬ req.password.any (fun c => c.isDigit)
          · rw [if_pos h₄] at hbad
            injection hbad with h
            exact Or.inr (Or.inr (Or.inr (Or.inl ⟨h₄, h.symm⟩)))
          · rw [if_neg h₄] at hbad
            by_cases h₅ : ¬ req.password.any (fun c => ¬ c.isAlphanum)
            · rw [if_pos h₅] at hbad
              injection hbad with h
              exact Or.inr (Or.inr (Or.inr (Or.inr ⟨h₅, h.symm⟩)))
            · rw [if_neg h₅] at hbad
              exact absurd hbad (by simp)
  · intro pw
    unfold check_password
    split_ifs with h₁ h₂ h₃ h₄ h₅ <;> simp_all

/-- Witness for C7: registering with password "password1!" (no uppercase
letter) fails with the uppercase-rule message and leaves the store as it
was. -/
theorem C7_register_password_policy_witness :
    RegisterService baseStore
        { email := "new@example.com", password := "password1!".data,
          full_name := none }
        (fun _ => some "H") "topsecret" 3 "r" 500
      = (baseStore,
         .error "Password must contain at least one uppercase letter") :=
  (C7_register_password_policy baseStore
    { email := "new@example.com", password := "password1!".data,
      full_name := none }
    (fun _ => some "H") "topsecret" 3 "r" 500
    "Password must contain at least one uppercase letter" rfl rfl).1

/-- C8: an access token minted for a user fails verification with the single
"Invalid token" outcome at any time more than 15 minutes plus 10 seconds after
issuance, and verifies successfully 5 minutes after issuance, returning the
issuing subject. -/
theorem C8_access_token_lifetime (secret : String) (uid : Nat) (t tv : Int)
    (freshRefresh : String) (hlate : t + 15 * 60 + 10 < tv) :
    verify_token secret tv (generate_tokens secret uid t freshRefresh).1
      = .error "Invalid token"
    ∧ verify_token secret (t + 5 * 60) (generate_tokens secret uid t freshRefresh).1
      = .ok uid := by
  constructor <;> simp [generate_tokens, encodeJwt, verify_token] <;> omega

/-- Witness for C8 at secret "topsecret", user 1, issuance time 0, late
verification time 1000 (beyond 0 + 900 + 10). -/
theorem C8_access_token_lifetime_witness :
    verify_token "topsecret" 1000 (generate_tokens "topsecret" 1 0 "r").1
      = .error "Invalid token"
    ∧ verify_token "topsecret" (0 + 5 * 60) (generate_tokens "topsecret" 1 0 "r").1
      = .ok 1 :=
  C8_access_token_lifetime "topsecret" 1 0 1000 "r" (by norm_num)

/-- C2: an authenticated transfer call whose token subject differs from the
sender id of the request fails with the UNAUTHORIZED outcome, leaves the store
exactly as it was, and does so uniformly for every store and every value of the
infrastructure-failure oracle (the store is never consulted). -/
theorem C2_transfer_caller_mismatch_rejected
    (st : Store) (auth : Option Jwt) (secret : String) (now : Int)
    (transfer : TransferReq) (failBegin fail₁ fail₂ fail₃ failCommit : Bool)
    (freshId uid : Nat)
    (hauth : validate_auth_token auth secret now = .ok uid)
    (hneq : uid ≠ transfer.sender_id) :
    create_transaction st auth secret now transfer
        failBegin fail₁ fail₂ fail₃ failCommit freshId
      = (st, .error (.UNAUTHORIZED, "Invalid token")) := by
  unfold create_transaction
  rw [hauth]
  simp [hneq]

/-- Witness for C2: user 1 attempting a transfer whose sender is user 2. -/
theorem C2_transfer_caller_mismatch_rejected_witness :
    create_transaction baseStore (some aliceToken) "topsecret" 500
        { sender_id := 2, receiver_id := 1, amount := 30, description := none }
        false false false false false 7
      = (baseStore, .error (.UNAUTHORIZED, "Invalid token")) :=
  C2_transfer_caller_mismatch_rejected baseStore (some aliceToken) "topsecret" 500
    { sender_id := 2, receiver_id := 1, amount := 30, description := none }
    false false false false false 7 1 rfl (by decide)

/-- C1: for a transfer call that passes authentication and the caller==sender
check, if begin, any of the three sub-operations (debit, credit, record
insert), or commit fails, the visible store equals the store before the call
and the response is the failure outcome; when all succeed, the committed
store carries exactly the debit, the credit, and the appended transfer
record. -/
theorem C1_transfer_atomicity
    (st : Store) (auth : Option Jwt) (secret : String) (now : Int)
    (transfer : TransferReq) (failBegin fail₁ fail₂ fail₃ failCommit : Bool)
    (freshId uid : Nat)
    (hauth : validate_auth_token auth secret now = .ok uid)
    (hsender : uid = transfer.sender_id) :
    ((failBegin || fail₁ || fail₂ || fail₃ || failCommit) = true →
      create_transaction st auth secret now transfer
          failBegin fail₁ fail₂ fail₃ failCommit freshId
        = (st, .error (.INTERNAL_SERVER_ERROR, "Failed to transfer amount")))
    ∧ ((failBegin || fail₁ || fail₂ || fail₃ || failCommit) = false →
      create_transaction st auth secret now transfer
          failBegin fail₁ fail₂ fail₃ failCommit freshId
        = (insertTransfer
            (creditUser (debitUser st transfer.sender_id transfer.amount)
              transfer.receiver_id transfer.amount)
            freshId transfer.sender_id transfer.receiver_id transfer.amount,
           .ok freshId)) := by
  subst hsender
  unfold create_transaction
  rw [hauth]
  cases failBegin <;> cases fail₁ <;> cases fail₂ <;> cases fail₃ <;>
    cases failCommit <;> simp

/-- Witness for C1: with a debit failure injected the call rolls back to the
base store; with no failure injected it commits the debit, credit, and new
transfer record. -/
theorem C1_transfer_atomicity_witness :
    (create_transaction baseStore (some aliceToken) "topsecret" 500 reqSmall
        false true false false false 7
      = (baseStore, .error (.INTERNAL_SERVER_ERROR, "Failed to transfer amount")))
    ∧ (create_transaction baseStore (some aliceToken) "topsecret" 500 reqSmall
        false false false false false 7
      = (insertTransfer (creditUser (debitUser baseStore 1 30) 2 30) 7 1 2 30,
         .ok 7)) :=
  ⟨(C1_transfer_atomicity baseStore (some aliceToken) "topsecret" 500 reqSmall
      false true false false false 7 1 rfl rfl).1 (by decide),
   (C1_transfer_atomicity baseStore (some aliceToken) "topsecret" 500 reqSmall
      false false false false false 7 1 rfl rfl).2 (by decide)⟩

/-- C9: an authenticated transfer with caller equal to sender commits for
every amount whatsoever — the definition imposes no positivity condition on
the amount and no sufficiency condition on the sender balance — and the
committed store debits the sender by exactly that amount (which drives the
balance negative when the amount exceeds it). -/
theorem C9_transfer_has_no_amount_or_funds_check
    (st : Store) (auth : Option Jwt) (secret : String) (now : Int)
    (transfer : TransferReq) (freshId uid : Nat)
    (hauth : validate_auth_token auth secret now = .ok uid)
    (hsender : uid = transfer.sender_id) :
    create_transaction st auth secret now transfer false false false false false freshId
      = (insertTransfer
          (creditUser (debitUser st transfer.sender_id transfer.amount)
            transfer.receiver_id transfer.amount)
          freshId transfer.sender_id transfer.receiver_id transfer.amount,
         .ok freshId) := by
  subst hsender
  unfold create_transaction
  rw [hauth]
  simp

/-- Witness for C9: the overdraft request (amount 150 against balance 100)
commits and leaves user 1 with balance -50; the negative-amount request
(amount -5) also commits. -/
theorem C9_transfer_has_no_amount_or_funds_check_witness :
    ((create_transaction baseStore (some aliceToken) "topsecret" 500
        reqOverdraft false false false false false 7).2 = .ok 7)
    ∧ ((create_transaction baseStore (some aliceToken) "topsecret" 500
        reqOverdraft false false false false false 7).1.users.map User.balance
      = [-50, 150])
    ∧ ((create_transaction baseStore (some aliceToken) "topsecret" 500
        reqNegative false false false false false 8).2 = .ok 8) := by
  have h₁ := C9_transfer_has_no_amount_or_funds_check baseStore (some aliceToken)
    "topsecret" 500 reqOverdraft 7 1 rfl rfl
  have h₂ := C9_transfer_has_no_amount_or_funds_check baseStore (some aliceToken)
    "topsecret" 500 reqNegative 8 1 rfl rfl
  refine ⟨by rw [h₁], by rw [h₁]; decide, by rw [h₂]⟩

/-- C10: an authenticated update_user call whose payload user_id equals the
caller id rewrites the full_name and email of every row of the users table
(the UPDATE carries no row filter), reporting success. -/
theorem C10_update_user_updates_every_row
    (st : Store) (auth : Option Jwt) (secret : String) (now : Int)
    (payload : UpdateUserReq) (uid : Nat)
    (hauth : validate_auth_token auth secret now = .ok uid)
    (hid : payload.user_id = uid) :
    (update_user st auth secret now payload).2
      = .ok (.OK, "User updated successfully")
    ∧ (update_user st auth secret now payload).1.users
      = st.users.map (fun u =>
          { u with full_name := some payload.new_name,
                   email := payload.new_email })
    ∧ ∀ u ∈ (update_user st auth secret now payload).1.users,
        u.full_name = some payload.new_name ∧ u.email = payload.new_email := by
  have hmain : update_user st auth secret now payload
      = ({ st with users := st.users.map (fun (u : User) =>
            { u with full_name := some payload.new_name,
                     email := payload.new_email }) },
         .ok (.OK, "User updated successfully")) := by
    unfold update_user
    rw [hauth]
    simp [hid]
  refine ⟨by rw [hmain], by rw [hmain], ?_⟩
  intro u hu
  rw [hmain] at hu
  rcases List.mem_map.1 hu with ⟨v, -, rfl⟩
  exact ⟨rfl, rfl⟩

/-- Witness for C10: user 1 updating own name and email also rewrites the row
of user 2. -/
theorem C10_update_user_updates_every_row_witness :
    (update_user baseStore (some aliceToken) "topsecret" 500
        { user_id := 1, new_name := "X", new_email := "x@example.com" }).2
      = .ok (.OK, "User updated successfully")
    ∧ ∀ u ∈ (update_user baseStore (some aliceToken) "topsecret" 500
        { user_id := 1, new_name := "X", new_email := "x@example.com" }).1.users,
        u.full_name = some "X" ∧ u.email = "x@example.com" :=
  ⟨(C10_update_user_updates_every_row baseStore (some aliceToken) "topsecret" 500
      { user_id := 1, new_name := "X", new_email := "x@example.com" } 1
      rfl rfl).1,
   (C10_update_user_updates_every_row baseStore (some aliceToken) "topsecret" 500
      { user_id := 1, new_name := "X", new_email := "x@example.com" } 1
      rfl rfl).2.2⟩

/-- C6: refresh fails when no stored refresh-token row both matches the given
token and is unexpired; on a successful lookup it returns a new access token
whose subject is the id of the owner of a matched stored row, persists a
brand-new refresh token with its own expiry now + 1 hour, and the resulting
refresh-token table is the old one with the new row appended — every
pre-existing row, the consumed one included, is left unmodified. -/
theorem C6_refresh_semantics
    (st : Store) (token secret freshRefresh : String) (now : Int) :
    ((∀ rt ∈ st.refresh_tokens, ¬ (rt.token = token ∧ now < rt.expires_at)) →
      RefreshService st token secret freshRefresh now
        = (st, .error "Invalid refresh token"))
    ∧ (verify_refresh_token st token now = none →
      RefreshService st token secret freshRefresh now
        = (st, .error "Invalid refresh token"))
    ∧ (∀ user, verify_refresh_token st token now = some user →
      (∃ rt ∈ st.refresh_tokens, rt.token = token ∧ now < rt.expires_at
        ∧ user.id = rt.user_id)
      ∧ RefreshService st token secret freshRefresh now
        = (store_refresh_token st user.id freshRefresh (now + 60 * 60),
           .ok { access_token := encodeJwt secret
                   { sub := user.id, exp := now + 15 * 60, iat := now },
                 refresh_token := freshRefresh, user_uid := user.id })
      ∧ (store_refresh_token st user.id freshRefresh (now + 60 * 60)).refresh_tokens
          = st.refresh_tokens
            ++ [{ user_id := user.id, token := freshRefresh,
                  expires_at := now + 60 * 60 }]) := by
  refine ⟨?_, ?_, ?_⟩
  · intro h
    have hnone : verify_refresh_token st token now = none := by
      unfold verify_refresh_token
      exact findSome?_none_of_forall _ _ (fun rt hrt => if_neg (h rt hrt))
    simp [RefreshService, hnone]
  · intro h
    simp [RefreshService, h]
  · intro user h
    exact ⟨verify_refresh_token_some_spec _ _ _ _ h,
      by simp [RefreshService, h, generate_tokens], rfl⟩

/-- Witness for C6: in the fixture store, refreshing with stored live token
"tokR" succeeds for user 1 and appends the new row; refreshing with an
unknown token fails. -/
theorem C6_refresh_semantics_witness :
    RefreshService refreshStore "tokR" "topsecret" "newR" 500
      = (store_refresh_token refreshStore 1 "newR" (500 + 60 * 60),
         .ok { access_token := encodeJwt "topsecret"
                 { sub := 1, exp := 500 + 15 * 60, iat := 500 },
               refresh_token := "newR", user_uid := 1 })
    ∧ RefreshService refreshStore "missing" "topsecret" "newR" 500
      = (refreshStore, .error "Invalid refresh token") :=
  ⟨((C6_refresh_semantics refreshStore "tokR" "topsecret" "newR" 500).2.2
      mappedAlice rfl).2.1,
   (C6_refresh_semantics refreshStore "missing" "topsecret" "newR" 500).2.1 rfl⟩

/-- Counterexample to C4 as stated: for an existing transfer the caller is
not a party to, get_transaction fails with the INTERNAL_SERVER_ERROR
outcome, which is not a NotFound status. -/
theorem C4_counterexample_failure_is_500_not_404 :
    get_transaction txStoreOther (some aliceToken) "topsecret" 500 9
      = .error (.INTERNAL_SERVER_ERROR, "Failed to retrieve transaction")
    ∧ StatusCode.INTERNAL_SERVER_ERROR ≠ StatusCode.NOT_FOUND :=
  ⟨rfl, by decide⟩

/-- C4 amended: the record is returned iff a transfer with the requested id
exists with the caller as sender or receiver; in every other case — record
absent, or present with the caller not a party — the call fails with the one
uniform (INTERNAL_SERVER_ERROR, "Failed to retrieve transaction") outcome,
with no distinct permission-denied response. -/
theorem C4_get_transaction_visibility
    (st : Store) (auth : Option Jwt) (secret : String) (now : Int)
    (tid uid : Nat)
    (hauth : validate_auth_token auth secret now = .ok uid) :
    ((∃ t ∈ st.transfers,
        t.id = tid ∧ (t.sender_id = uid ∨ t.recipient_id = uid)) →
      (get_transaction st auth secret now tid).isOk = true)
    ∧ (∀ out, get_transaction st auth secret now tid = .ok out →
      ∃ t ∈ st.transfers,
        t.id = tid ∧ (t.sender_id = uid ∨ t.recipient_id = uid)
        ∧ out = { sender_id := t.sender_id, receiver_id := t.recipient_id,
                  amount := t.amount, description := none })
    ∧ ((∀ t ∈ st.transfers,
        ¬ (t.id = tid ∧ (t.sender_id = uid ∨ t.recipient_id = uid))) →
      get_transaction st auth secret now tid
        = .error (.INTERNAL_SERVER_ERROR, "Failed to retrieve transaction")) := by
  refine ⟨?_, ?_, ?_⟩
  · intro hex
    have hsome : (st.transfers.find? (fun t =>
        t.id = tid ∧ (t.sender_id = uid ∨ t.recipient_id = uid))).isSome = true := by
      rw [List.find?_isSome]
      obtain ⟨t, ht, hp⟩ := hex
      exact ⟨t, ht, by simpa using hp⟩
    obtain ⟨t, hfind⟩ := Option.isSome_iff_exists.mp hsome
    simp only [get_transaction, hauth, hfind]
    rfl
  · intro out hout
    simp only [get_transaction, hauth] at hout
    cases hfind : st.transfers.find? (fun t =>
        t.id = tid ∧ (t.sender_id = uid ∨ t.recipient_id = uid)) with
    | none =>
      rw [hfind] at hout
      simp at hout
    | some t =>
      rw [hfind] at hout
      have hout₂ : (Except.ok
            { sender_id := t.sender_id, receiver_id := t.recipient_id,
              amount := t.amount, description := none }
          : Except (StatusCode × String) TransferOut) = .ok out := hout
      have hmem := List.mem_of_find?_eq_some hfind
      have hp := List.find?_some hfind
      simp only [decide_eq_true_eq] at hp
      refine ⟨t, hmem, hp.1, hp.2, ?_⟩
      injection hout₂ with h
      exact h.symm
  · intro hall
    have hnone : st.transfers.find? (fun t =>
        t.id = tid ∧ (t.sender_id = uid ∨ t.recipient_id = uid)) = none := by
      rw [List.find?_eq_none]
      intro t ht
      simpa using hall t ht
    simp only [get_transaction, hauth, hnone]

/-- Witness for C4: user 1 can read own transfer 9 in one fixture store, and
gets the uniform failure for the foreign transfer 9 of the other fixture
store. -/
theorem C4_get_transaction_visibility_witness :
    (get_transaction txStoreMine (some aliceToken) "topsecret" 500 9).isOk = true
    ∧ get_transaction txStoreOther (some aliceToken) "topsecret" 500 9
      = .error (.INTERNAL_SERVER_ERROR, "Failed to retrieve transaction") :=
  ⟨(C4_get_transaction_visibility txStoreMine (some aliceToken) "topsecret" 500
      9 1 rfl).1
      ⟨{ id := 9, sender_id := 1, recipient_id := 2, amount := 5 },
       by decide, by decide⟩,
   (C4_get_transaction_visibility txStoreOther (some aliceToken) "topsecret" 500
      9 1 rfl).2.2 (by decide)⟩

/-- Counterexample to C3 as stated: the deposit route — a public operation
outside the transfer engine — changes the balance of user 1 from 100 to 150
in the fixture store. -/
theorem C3_counterexample_deposit_writes_balance :
    ((deposit baseStore (some aliceToken) "topsecret" 500
        { email := "alice@example.com", full_name := "A", amount := 50 }).1.users.map
      User.balance) = [150, 0]
    ∧ baseStore.users.map User.balance = [100, 0] := by
  constructor <;> rfl

/-- C3 amended: post-creation, a user balance is written by exactly two
operations — the debit/credit pair of the transfer engine and the deposit
route.  Login and refresh leave the users table untouched; register only
appends a row; update_user preserves the id and balance of every row; deposit
either leaves the store unchanged or adds the payload amount to the balance of
precisely the rows whose email matches the payload; create_transaction either
leaves the store unchanged or applies precisely its debit and credit to the
users table. -/
theorem C3_balance_writers
    : (∀ (st : Store) (req : LoginRequest) (parseOk : String → Bool)
        (verify : String → String → Bool) (secret fr : String) (now : Int),
        (LoginService st req parseOk verify secret fr now).1.users = st.users)
    ∧ (∀ (st : Store) (token secret fr : String) (now : Int),
        (RefreshService st token secret fr now).1.users = st.users)
    ∧ (∀ (st : Store) (req : RegisterRequest)
        (hashFn : List Char → Option String) (secret : String) (freshId : Nat)
        (fr : String) (now : Int),
        ∃ tail, (RegisterService st req hashFn secret freshId fr now).1.users
          = st.users ++ tail)
    ∧ (∀ (st : Store) (auth : Option Jwt) (secret : String) (now : Int)
        (payload : UpdateUserReq),
        (update_user st auth secret now payload).1.users.map
            (fun u => (u.id, u.balance))
          = st.users.map (fun u => (u.id, u.balance)))
    ∧ (∀ (st : Store) (auth : Option Jwt) (secret : String) (now : Int)
        (payload : DepositReq),
        (deposit st auth secret now payload).1 = st
        ∨ (deposit st auth secret now payload).1.users
          = st.users.map (fun (u : User) =>
              if u.email = payload.email then
                { u with balance := u.balance + payload.amount } else u))
    ∧ (∀ (st : Store) (auth : Option Jwt) (secret : String) (now : Int)
        (transfer : TransferReq) (failBegin fail₁ fail₂ fail₃ failCommit : Bool)
        (freshId : Nat),
        (create_transaction st auth secret now transfer
            failBegin fail₁ fail₂ fail₃ failCommit freshId).1 = st
        ∨ (create_transaction st auth secret now transfer
            failBegin fail₁ fail₂ fail₃ failCommit freshId).1.users
          = (creditUser (debitUser st transfer.sender_id transfer.amount)
              transfer.receiver_id transfer.amount).users) := by
  refine ⟨?_, ?_, ?_, ?_, ?_, ?_⟩
  · intro st req parseOk verify secret fr now
    cases hfind : find_user_by_email st req.email with
    | none => simp [LoginService, hfind]
    | some v =>
      obtain ⟨user, email, password⟩ := v
      by_cases h₁ : ¬ parseOk password
      · simp [LoginService, hfind, h₁]
      · by_cases h₂ : ¬ verify req.password password
        · simp [LoginService, hfind, h₁, h₂]
        · simp [LoginService, hfind, h₁, h₂, store_refresh_token]
  · intro st token secret fr now
    cases hv : verify_refresh_token st token now with
    | none => simp [RefreshService, hv]
    | some user =>
      simp [RefreshService, hv, store_refresh_token, generate_tokens]
  · intro st req hashFn secret freshId fr now
    cases hfind : find_user_by_email st req.email with
    | some v => exact ⟨[], by simp [RegisterService, hfind]⟩
    | none =>
      cases hchk : check_password req.password with
      | error e => exact ⟨[], by simp [RegisterService, hfind, hchk]⟩
      | ok u =>
        cases hh : hashFn req.password with
        | none => exact ⟨[], by simp [RegisterService, hfind, hchk, hh]⟩
        | some password_hash =>
          refine ⟨[{ id := freshId, email := req.email,
                     password_hash := password_hash,
                     full_name := req.full_name,
                     balance := 0, status := "active", created_at := now,
                     updated_at := now }], ?_⟩
          simp [RegisterService, hfind, hchk, hh, create_user,
            store_refresh_token, generate_tokens]
  · intro st auth secret now payload
    cases hv : validate_auth_token auth secret now with
    | error code => simp [update_user, hv]
    | ok user_id =>
      by_cases h₁ : payload.user_id ≠ user_id
      · simp [update_user, hv, h₁]
      · simp [update_user, hv, h₁, List.map_map, Function.comp]
  · intro st auth secret now payload
    cases hv : validate_auth_token auth secret now with
    | error code => exact Or.inl (by simp [deposit, hv])
    | ok user_id =>
      cases hr : st.users.find? (fun u => u.id = user_id) with
      | none => exact Or.inl (by simp [deposit, hv, hr])
      | some row =>
        by_cases h₁ : payload.email ≠ row.email
        · exact Or.inl (by simp [deposit, hv, hr, h₁])
        · cases hf : find_user_by_email st payload.email with
          | none => exact Or.inl (by simp [deposit, hv, hr, h₁, hf])
          | some v =>
            cases hg : (st.users.map (fun (u : User) =>
                if u.email = payload.email then
                  { u with balance := u.balance + payload.amount }
                else u)).find? (fun u => u.email = payload.email) with
            | none => exact Or.inl (by simp [deposit, hv, hr, h₁, hf, hg])
            | some record => exact Or.inr (by simp [deposit, hv, hr, h₁, hf, hg])
  · intro st auth secret now transfer failBegin fail₁ fail₂ fail₃ failCommit freshId
    cases hv : validate_auth_token auth secret now with
    | error code => exact Or.inl (by simp [create_transaction, hv])
    | ok header_uid =>
      by_cases h₁ : header_uid ≠ transfer.sender_id
      · exact Or.inl (by simp [create_transaction, hv, h₁])
      · cases failBegin with
        | true => exact Or.inl (by simp [create_transaction, hv, h₁])
        | false =>
          cases fail₁ with
          | true => exact Or.inl (by simp [create_transaction, hv, h₁])
          | false =>
            cases fail₂ with
            | true => exact Or.inl (by simp [create_transaction, hv, h₁])
            | false =>
              cases fail₃ with
              | true => exact Or.inl (by simp [create_transaction, hv, h₁])
              | false =>
                cases failCommit with
                | true => exact Or.inl (by simp [create_transaction, hv, h₁])
                | false =>
                  exact Or.inr
                    (by simp [create_transaction, hv, h₁, insertTransfer])

end PaymentSystem
